import Mathlib

set_option maxHeartbeats 1000000

namespace Tasker

/-! String helpers modelling the Go standard-library functions used by the
config package (strings.TrimSpace, strings.HasPrefix, strings.TrimPrefix,
strings.ToLower, strings.SplitN, strconv integer parsing, the comma
slice-splitting decode hook) on the ASCII subset exercised by configuration
keys and values. All functions are structurally recursive so they evaluate
inside the kernel. -/

def goIsSpace (c : Char) : Bool :=
  c == ' ' || c == '\t' || c == '\n' || c == '\r' || c == '\x0b' || c == '\x0c'

def strTrim (s : String) : String :=
  String.mk (((s.toList.dropWhile goIsSpace).reverse.dropWhile goIsSpace).reverse)

def isPre : List Char → List Char → Bool
  | [], _ => true
  | _ :: _, [] => false
  | c :: cs, d :: ds => c == d && isPre cs ds

def strStartsWith (s pat : String) : Bool := isPre pat.toList s.toList

def strDropStart (s : String) (n : Nat) : String := String.mk (s.toList.drop n)

def lowerChar (c : Char) : Char :=
  if 'A' ≤ c ∧ c ≤ 'Z' then Char.ofNat (c.toNat + 32) else c

def strToLower (s : String) : String := String.mk (s.toList.map lowerChar)

def digitVal (c : Char) : Option Nat :=
  if '0' ≤ c ∧ c ≤ '9' then some (c.toNat - '0'.toNat) else none

def digitsToNatAux : List Char → Nat → Option Nat
  | [], acc => some acc
  | c :: cs, acc =>
    match digitVal c with
    | some d => digitsToNatAux cs (10 * acc + d)
    | none => none

/-- Decimal integer parsing as done by strconv for the plain decimal values
that appear in this configuration (sign followed by base-10 digits). -/
def strToInt (s : String) : Option Int :=
  match s.toList with
  | [] => none
  | '-' :: [] => none
  | '-' :: cs => (digitsToNatAux cs 0).map (fun n => -(n : Int))
  | '+' :: [] => none
  | '+' :: cs => (digitsToNatAux cs 0).map (fun n => (n : Int))
  | cs => (digitsToNatAux cs 0).map (fun n => (n : Int))

/-- strings.Split on the comma delimiter, as used by the slice decode hook. -/
def splitOnComma : List Char → List (List Char)
  | [] => [[]]
  | c :: cs =>
    match splitOnComma cs with
    | h :: t => if c == ',' then [] :: h :: t else (c :: h) :: t
    | [] => if c == ',' then [[], []] else [[c]]

/-- strings.SplitN(line, sep, 2) for a one-character separator: the part
before the first occurrence and everything after it, or none when the
separator does not occur. -/
def splitFirstEq : List Char → Option (List Char × List Char)
  | [] => none
  | c :: cs =>
    if c == '=' then some ([], cs)
    else
      match splitFirstEq cs with
      | none => none
      | some (a, b) => some (c :: a, b)

/-! The dotenv overlay loader, translated from loadDotEnvFiles. The process
environment is modelled as an association list where a later entry for a key
shadows an earlier one, which models os.Setenv overwriting the variable. -/

/-- Strips one surrounding pair of matching double or single quotes, exactly
as the quote handling in loadDotEnvFiles does (length at least two and the
same quote character at both ends). -/
def stripPairQuotes (l : List Char) : List Char :=
  match l with
  | c :: cs =>
    match cs.reverse with
    | d :: mid =>
      if (c == '"' && d == '"') || (c == '\'' && d == '\'') then mid.reverse
      else l
    | [] => l
  | [] => l

def stripQuotes (val : String) : String := String.mk (stripPairQuotes val.toList)

/-- One line of an override file: trim, skip blanks and comment lines, split
at the first equals sign only, trim key and value, strip one quote pair. -/
def parseLine (raw : String) : Option (String × String) :=
  let line := strTrim raw
  if line = "" then none
  else if strStartsWith line "#" then none
  else
    match splitFirstEq line.toList with
    | none => none
    | some (k, rest) =>
      some (strTrim (String.mk k), stripQuotes (strTrim (String.mk rest)))

abbrev Env := List (String × String)

def setEnv (e : Env) (k v : String) : Env := e ++ [(k, v)]

def getEnv (e : Env) (k : String) : Option String :=
  (e.reverse.find? (fun p => p.1 == k)).map Prod.snd

def applyLine (e : Env) (raw : String) : Env :=
  match parseLine raw with
  | none => e
  | some (k, v) => setEnv e k v

def loadFile (e : Env) (lines : List String) : Env := lines.foldl applyLine e

/-- loadDotEnvFiles: each candidate file is processed in order; a missing
file (modelled as none) is skipped without error. -/
def loadDotEnvFiles (e : Env) (files : List (Option (List String))) : Env :=
  files.foldl (fun acc f => match f with | none => acc | some ls => loadFile acc ls) e

/-- The value a single override file assigns to a key (its last assignment),
used to state precedence between files. -/
def fileValue (lines : List String) (k : String) : Option String :=
  getEnv (loadFile [] lines) k

/-! The configuration schema, translated field by field from the Go structs.
Required fields carry their validate tag in validateConfig below. -/

structure Primary where
  Env : String
deriving DecidableEq, Repr

structure ServerConfig where
  Port : String
  ReadTimeout : Int
  WriteTimeout : Int
  IdleTimeout : Int
  CORSAllowedOrigins : List String
deriving DecidableEq, Repr

structure DatabaseConfig where
  Host : String
  Port : Int
  User : String
  Password : String
  Name : String
  SSLMode : String
  MaxOpenConns : Int
  MaxIdleConns : Int
  ConnMaxLifetime : Int
  ConnMaxIdleTime : Int
deriving DecidableEq, Repr

structure AWSConfig where
  Region : String
  AccessKeyID : String
  SecretAccessKey : String
  UploadBucket : String
  EndpointURL : String
deriving DecidableEq, Repr

structure CronConfig where
  ArchiveDaysThreshold : Int
  BatchSize : Int
  ReminderHours : Int
  MaxTodosPerUserNotification : Int
deriving DecidableEq, Repr

def DefaultCronConfig : CronConfig :=
  { ArchiveDaysThreshold := 30
    BatchSize := 100
    ReminderHours := 24
    MaxTodosPerUserNotification := 10 }

structure RedisConfig where
  Address : String
  Password : String
deriving DecidableEq, Repr

structure IntegrationConfig where
  ResendAPIKey : String
deriving DecidableEq, Repr

structure AuthConfig where
  SecretKey : String
deriving DecidableEq, Repr

/-- Modelled from the spec: the ObservabilityConfig struct lives in a source
file that is not part of src/. The spec describes it as holding the service
name, the active environment name and exporter settings. -/
structure ObservabilityConfig where
  ServiceName : String
  Environment : String
  ExporterEndpoint : String
deriving DecidableEq, Repr

/-- Modelled from the spec: the built-in default record for the optional
Observability section (DefaultObservabilityConfig, defined outside src/).
The spec names the record but fixes none of its field values beyond the
service-name constant; the environment value is irrelevant downstream
because it is force-overwritten from Primary. -/
def DefaultObservabilityConfig : ObservabilityConfig :=
  { ServiceName := "tasker", Environment := "", ExporterEndpoint := "" }

/-- Modelled from the spec: ObservabilityConfig.Validate, defined outside
src/. The spec requires a defaulted-or-supplied optional section to satisfy
its own internal validation; the identity fields are the only concretely
specified fields, so validation checks them for presence. -/
def ObservabilityConfig.Validate (o : ObservabilityConfig) : Bool :=
  o.ServiceName != "" && o.Environment != ""

/-- The fully populated schema, mirroring the Go Config struct. The two
optional sections are pointers in Go; none models a nil pointer. -/
structure Config where
  Primary : Primary
  Server : ServerConfig
  Database : DatabaseConfig
  Auth : AuthConfig
  Redis : RedisConfig
  Integration : IntegrationConfig
  Observability : Option ObservabilityConfig
  AWS : AWSConfig
  Cron : Option CronConfig
deriving DecidableEq, Repr

/-! The environment collector and schema populator, translating the koanf
env provider call in LoadConfig: keys with the fixed prefix are kept, the
prefix is stripped and the remainder lowercased, and the result is split on
the dot delimiter into a key path. The populator is modelled as a flat
lookup of dotted paths, which is equivalent to the nested map koanf builds. -/

/-- The key transform passed to the env provider: keep only keys carrying
the TASKER_ marker, strip it (its length is 7) and lowercase the rest. -/
def transformEnvKey (k : String) : Option String :=
  if strStartsWith k "TASKER_" then some (strToLower (strDropStart k 7)) else none

/-- Looks up the value collected for a dotted key path; a later environment
entry wins, modelling map insertion in environ order. -/
def collect (e : Env) (path : String) : Option String :=
  (e.reverse.find? (fun p => transformEnvKey p.1 == some path)).map Prod.snd

/-- Whether any collected key lies under the given section, which is what
makes koanf allocate the pointer for an optional section. -/
def hasSection (e : Env) (sec : String) : Bool :=
  e.any (fun p =>
    match transformEnvKey p.1 with
    | some t => isPre (sec ++ ".").toList t.toList
    | none => false)

def popStr (e : Env) (path : String) : String :=
  match collect e path with
  | some v => v
  | none => ""

/-- Integer field decoding: an absent key leaves the zero value; a present
value is parsed as an integer, the empty string decoding to zero under the
weakly typed decoder; anything else unparsable is a fatal coercion error. -/
def popInt (e : Env) (path : String) : Except String Int :=
  match collect e path with
  | none => Except.ok 0
  | some s =>
    match strToInt (if s = "" then "0" else s) with
    | some n => Except.ok n
    | none => Except.error path

/-- String-list field decoding via the comma split hook: absent keys give
the empty (nil) list, the empty string gives an empty list, anything else
is split on commas. -/
def popStrList (e : Env) (path : String) : List String :=
  match collect e path with
  | none => []
  | some s => if s = "" then [] else (splitOnComma s.toList).map String.mk

def popPrimary (e : Env) : Primary := { Env := popStr e "primary.env" }

def popServer (e : Env) : Except String ServerConfig :=
  match popInt e "server.read_timeout" with
  | Except.error p => Except.error p
  | Except.ok rt =>
    match popInt e "server.write_timeout" with
    | Except.error p => Except.error p
    | Except.ok wt =>
      match popInt e "server.idle_timeout" with
      | Except.error p => Except.error p
      | Except.ok it =>
        Except.ok
          { Port := popStr e "server.port"
            ReadTimeout := rt
            WriteTimeout := wt
            IdleTimeout := it
            CORSAllowedOrigins := popStrList e "server.cors_allowed_origins" }

def popDatabase (e : Env) : Except String DatabaseConfig :=
  match popInt e "database.port" with
  | Except.error p => Except.error p
  | Except.ok port =>
    match popInt e "database.max_open_conns" with
    | Except.error p => Except.error p
    | Except.ok moc =>
      match popInt e "database.max_idle_conns" with
      | Except.error p => Except.error p
      | Except.ok mic =>
        match popInt e "database.conn_max_lifetime" with
        | Except.error p => Except.error p
        | Except.ok cml =>
          match popInt e "database.conn_max_idle_time" with
          | Except.error p => Except.error p
          | Except.ok cmi =>
            Except.ok
              { Host := popStr e "database.host"
                Port := port
                User := popStr e "database.user"
                Password := popStr e "database.password"
                Name := popStr e "database.name"
                SSLMode := popStr e "database.ssl_mode"
                MaxOpenConns := moc
                MaxIdleConns := mic
                ConnMaxLifetime := cml
                ConnMaxIdleTime := cmi }

def popAWS (e : Env) : AWSConfig :=
  { Region := popStr e "aws.region"
    AccessKeyID := popStr e "aws.access_key_id"
    SecretAccessKey := popStr e "aws.secret_access_key"
    UploadBucket := popStr e "aws.upload_bucket"
    EndpointURL := popStr e "aws.endpoint_url" }

def popRedis (e : Env) : RedisConfig :=
  { Address := popStr e "redis.address", Password := popStr e "redis.password" }

def popIntegration (e : Env) : IntegrationConfig :=
  { ResendAPIKey := popStr e "integration.resend_api_key" }

def popAuth (e : Env) : AuthConfig := { SecretKey := popStr e "auth.secret_key" }

def popObservability (e : Env) : Option ObservabilityConfig :=
  if hasSection e "observability" then
    some
      { ServiceName := popStr e "observability.service_name"
        Environment := popStr e "observability.environment"
        ExporterEndpoint := popStr e "observability.exporter_endpoint" }
  else none

def popCron (e : Env) : Except String (Option CronConfig) :=
  if hasSection e "cron" then
    match popInt e "cron.archive_days_threshold" with
    | Except.error p => Except.error p
    | Except.ok adt =>
      match popInt e "cron.batch_size" with
      | Except.error p => Except.error p
      | Except.ok bs =>
        match popInt e "cron.reminder_hours" with
        | Except.error p => Except.error p
        | Except.ok rh =>
          match popInt e "cron.max_todos_per_user_notification" with
          | Except.error p => Except.error p
          | Except.ok mt =>
            Except.ok (some
              { ArchiveDaysThreshold := adt
                BatchSize := bs
                ReminderHours := rh
                MaxTodosPerUserNotification := mt })
  else Except.ok none

/-- Unmarshalling of the whole schema; the first coercion failure aborts
population with the offending field path, which LoadConfig treats as fatal. -/
def popConfig (e : Env) : Except String Config :=
  match popServer e with
  | Except.error p => Except.error p
  | Except.ok sv =>
    match popDatabase e with
    | Except.error p => Except.error p
    | Except.ok db =>
      match popCron e with
      | Except.error p => Except.error p
      | Except.ok cr =>
        Except.ok
          { Primary := popPrimary e
            Server := sv
            Database := db
            Auth := popAuth e
            Redis := popRedis e
            Integration := popIntegration e
            Observability := popObservability e
            AWS := popAWS e
            Cron := cr }

/-! The validator: each field carrying a required tag in the Go structs must
be non-zero. Failures are reported as dotted field paths. The optional
pointer sections carry no required tag. -/

def requiredStr (path s : String) : List String := if s = "" then [path] else []

def requiredInt (path : String) (n : Int) : List String := if n = 0 then [path] else []

def requiredList (path : String) (l : List String) : List String :=
  if l = [] then [path] else []

def validateConfig (c : Config) : List String :=
  requiredStr "primary.env" c.Primary.Env ++
  requiredStr "server.port" c.Server.Port ++
  requiredInt "server.read_timeout" c.Server.ReadTimeout ++
  requiredInt "server.write_timeout" c.Server.WriteTimeout ++
  requiredInt "server.idle_timeout" c.Server.IdleTimeout ++
  requiredList "server.cors_allowed_origins" c.Server.CORSAllowedOrigins ++
  requiredStr "database.host" c.Database.Host ++
  requiredInt "database.port" c.Database.Port ++
  requiredStr "database.user" c.Database.User ++
  requiredStr "database.name" c.Database.Name ++
  requiredStr "database.ssl_mode" c.Database.SSLMode ++
  requiredInt "database.max_open_conns" c.Database.MaxOpenConns ++
  requiredInt "database.max_idle_conns" c.Database.MaxIdleConns ++
  requiredInt "database.conn_max_lifetime" c.Database.ConnMaxLifetime ++
  requiredInt "database.conn_max_idle_time" c.Database.ConnMaxIdleTime ++
  requiredStr "auth.secret_key" c.Auth.SecretKey ++
  requiredStr "redis.address" c.Redis.Address ++
  requiredStr "integration.resend_api_key" c.Integration.ResendAPIKey ++
  requiredStr "aws.region" c.AWS.Region ++
  requiredStr "aws.access_key_id" c.AWS.AccessKeyID ++
  requiredStr "aws.secret_access_key" c.AWS.SecretAccessKey ++
  requiredStr "aws.upload_bucket" c.AWS.UploadBucket

/-- The Redis address normalization from LoadConfig: a non-empty address is
trimmed and a single leading scheme marker (plain or TLS variant) is
stripped; everything else passes through unchanged. -/
def normalizeRedisAddress (a : String) : String :=
  if a = "" then a
  else
    let addr := strTrim a
    if strStartsWith addr "redis://" then strDropStart addr 8
    else if strStartsWith addr "rediss://" then strDropStart addr 9
    else addr

/-- The observability default injection: replace a nil section wholesale
with the built-in default record, keep a supplied section as is. -/
def defaultedObservability (c0 : Config) : ObservabilityConfig :=
  match c0.Observability with
  | none => DefaultObservabilityConfig
  | some o => o

/-- The unconditional identity overwrite applied right after defaulting:
the service-name constant and the environment copied from Primary. -/
def overwrittenObservability (c0 : Config) : ObservabilityConfig :=
  { defaultedObservability c0 with
    ServiceName := "tasker", Environment := c0.Primary.Env }

/-- The configuration after observability defaulting plus overwrite and
Redis address normalization. -/
def normalizedStage (c0 : Config) : Config :=
  { c0 with
    Observability := some (overwrittenObservability c0)
    Redis := { c0.Redis with Address := normalizeRedisAddress c0.Redis.Address } }

/-- The post-population stages of LoadConfig in source order: validation,
observability defaulting, the unconditional identity overwrite, Redis
address normalization, the observability validation pass, cron defaulting. -/
def assemble (c0 : Config) : Except (List String) Config :=
  if validateConfig c0 = [] then
    if (overwrittenObservability c0).Validate then
      if (normalizedStage c0).Cron = none then
        Except.ok { normalizedStage c0 with Cron := some DefaultCronConfig }
      else Except.ok (normalizedStage c0)
    else Except.error ["invalid observability config"]
  else Except.error (validateConfig c0)

/-- LoadConfig: overlay the dotenv files onto the process environment,
collect and populate the schema, then run the assembly stages. Fatal logger
exits are modelled as error results. -/
def LoadConfig (files : List (Option (List String))) (e0 : Env) :
    Except (List String) Config :=
  match popConfig (loadDotEnvFiles e0 files) with
  | Except.error p => Except.error [p]
  | Except.ok c0 => assemble c0

end Tasker

namespace Tasker

/-- A concrete fully specified environment: every required field supplied
through dotted keys, the optional Observability section supplied with
conflicting identity values, no ScheduledJobTuning keys, and a scheme-marked
Redis address. -/
def envFull : Env :=
  [("TASKER_PRIMARY.ENV", "production"),
   ("TASKER_SERVER.PORT", "8080"),
   ("TASKER_SERVER.READ_TIMEOUT", "10"),
   ("TASKER_SERVER.WRITE_TIMEOUT", "10"),
   ("TASKER_SERVER.IDLE_TIMEOUT", "60"),
   ("TASKER_SERVER.CORS_ALLOWED_ORIGINS", "http://localhost:3000,https://app.example.com"),
   ("TASKER_DATABASE.HOST", "db"),
   ("TASKER_DATABASE.PORT", "5432"),
   ("TASKER_DATABASE.USER", "tasker"),
   ("TASKER_DATABASE.NAME", "taskerdb"),
   ("TASKER_DATABASE.SSL_MODE", "disable"),
   ("TASKER_DATABASE.MAX_OPEN_CONNS", "25"),
   ("TASKER_DATABASE.MAX_IDLE_CONNS", "5"),
   ("TASKER_DATABASE.CONN_MAX_LIFETIME", "300"),
   ("TASKER_DATABASE.CONN_MAX_IDLE_TIME", "60"),
   ("TASKER_AUTH.SECRET_KEY", "secret"),
   ("TASKER_REDIS.ADDRESS", "redis://cache:6379"),
   ("TASKER_INTEGRATION.RESEND_API_KEY", "rk-123"),
   ("TASKER_AWS.REGION", "us-east-1"),
   ("TASKER_AWS.ACCESS_KEY_ID", "AKIA"),
   ("TASKER_AWS.SECRET_ACCESS_KEY", "SECRET"),
   ("TASKER_AWS.UPLOAD_BUCKET", "uploads"),
   ("TASKER_OBSERVABILITY.SERVICE_NAME", "wrong-name"),
   ("TASKER_OBSERVABILITY.ENVIRONMENT", "wrong-env")]

/-- envFull with the server port supplied the way the spec scenario writes
it, with an underscore in place of the hierarchy separator. -/
def envC1 : Env :=
  ("TASKER_SERVER_PORT", "8080") ::
    envFull.filter (fun p => p.1 != "TASKER_SERVER.PORT")

/-- envFull with the required database name omitted. -/
def envC8 : Env := envFull.filter (fun p => p.1 != "TASKER_DATABASE.NAME")

/-- The schema populated from envFull, before the assembly stages. -/
def popFull : Config :=
  { Primary := { Env := "production" }
    Server :=
      { Port := "8080"
        ReadTimeout := 10
        WriteTimeout := 10
        IdleTimeout := 60
        CORSAllowedOrigins := ["http://localhost:3000", "https://app.example.com"] }
    Database :=
      { Host := "db"
        Port := 5432
        User := "tasker"
        Password := ""
        Name := "taskerdb"
        SSLMode := "disable"
        MaxOpenConns := 25
        MaxIdleConns := 5
        ConnMaxLifetime := 300
        ConnMaxIdleTime := 60 }
    Auth := { SecretKey := "secret" }
    Redis := { Address := "redis://cache:6379", Password := "" }
    Integration := { ResendAPIKey := "rk-123" }
    Observability := some
      { ServiceName := "wrong-name", Environment := "wrong-env", ExporterEndpoint := "" }
    AWS :=
      { Region := "us-east-1"
        AccessKeyID := "AKIA"
        SecretAccessKey := "SECRET"
        UploadBucket := "uploads"
        EndpointURL := "" }
    Cron := none }

/-- The final configuration produced from envFull: identity fields forced,
Redis scheme stripped, cron defaulted. -/
def cfgFull : Config :=
  { popFull with
    Redis := { Address := "cache:6379", Password := "" }
    Observability := some
      { ServiceName := "tasker", Environment := "production", ExporterEndpoint := "" }
    Cron := some DefaultCronConfig }

end Tasker

namespace Tasker

/-! Generic lemmas about the overlay loader and the environment. -/

lemma applyLine_append (e : Env) (l : String) :
    applyLine e l = e ++ applyLine [] l := by
  unfold applyLine
  cases parseLine l with
  | none => simp
  | some kv => simp [setEnv]

lemma loadFile_append (ls : List String) : ∀ e : Env, loadFile e ls = e ++ loadFile [] ls := by
  induction ls with
  | nil => intro e; simp [loadFile]
  | cons l ls ih =>
    intro e
    show loadFile (applyLine e l) ls = e ++ loadFile (applyLine [] l) ls
    rw [ih (applyLine e l), ih (applyLine [] l), applyLine_append, List.append_assoc]

lemma find?_append {α : Type} (p : α → Bool) (l₁ l₂ : List α) :
    (l₁ ++ l₂).find? p =
      match l₁.find? p with
      | some x => some x
      | none => l₂.find? p := by
  induction l₁ with
  | nil => simp
  | cons a l₁ ih =>
    cases h : p a
    · simp [List.find?, h, ih]
    · simp [List.find?, h]

lemma getEnv_append (a b : Env) (k : String) :
    getEnv (a ++ b) k =
      match getEnv b k with
      | some v => some v
      | none => getEnv a k := by
  unfold getEnv
  rw [List.reverse_append, find?_append]
  cases h : b.reverse.find? (fun p => p.1 == k) <;> simp

end Tasker

namespace Tasker

/-! Inversion lemmas for the pipeline. -/

lemma popConfig_ok_inv (e : Env) (c0 : Config) (h : popConfig e = Except.ok c0) :
    ∃ sv db cr,
      popServer e = Except.ok sv ∧ popDatabase e = Except.ok db ∧
      popCron e = Except.ok cr ∧
      c0 = { Primary := popPrimary e, Server := sv, Database := db, Auth := popAuth e,
             Redis := popRedis e, Integration := popIntegration e,
             Observability := popObservability e, AWS := popAWS e, Cron := cr } := by
  unfold popConfig at h
  cases hs : popServer e <;> rw [hs] at h
  case error => simp at h
  case ok sv =>
  cases hd : popDatabase e <;> rw [hd] at h
  case error => simp at h
  case ok db =>
  cases hc : popCron e <;> rw [hc] at h
  case error => simp at h
  case ok cr =>
  simp only [Except.ok.injEq] at h
  exact ⟨sv, db, cr, rfl, rfl, rfl, h.symm⟩

lemma popCron_of_no_section (e : Env) (h : hasSection e "cron" = false) :
    popCron e = Except.ok none := by
  simp [popCron, h]

lemma normalizedStage_Cron (c0 : Config) : (normalizedStage c0).Cron = c0.Cron := rfl

lemma assemble_ok_inv (c0 c : Config) (h : assemble c0 = Except.ok c) :
    validateConfig c0 = [] ∧
    c.Primary = c0.Primary ∧
    c.Observability = some (overwrittenObservability c0) ∧
    c.Redis = { c0.Redis with Address := normalizeRedisAddress c0.Redis.Address } ∧
    c.Cron = (match c0.Cron with
      | none => some DefaultCronConfig
      | some cr => some cr) := by
  unfold assemble at h
  by_cases hv : validateConfig c0 = []
  case neg => rw [if_neg hv] at h; simp at h
  case pos =>
  rw [if_pos hv] at h
  by_cases hov : (overwrittenObservability c0).Validate = true
  case neg => rw [if_neg hov] at h; simp at h
  case pos =>
  rw [if_pos hov] at h
  by_cases hc : (normalizedStage c0).Cron = none
  case pos =>
    rw [if_pos hc] at h
    simp only [Except.ok.injEq] at h
    subst h
    rw [normalizedStage_Cron] at hc
    refine ⟨hv, rfl, rfl, rfl, ?_⟩
    rw [hc]
  case neg =>
    rw [if_neg hc] at h
    simp only [Except.ok.injEq] at h
    subst h
    rw [normalizedStage_Cron] at hc
    cases hcr : c0.Cron with
    | none => exact absurd hcr hc
    | some cr =>
      refine ⟨hv, rfl, rfl, rfl, ?_⟩
      rw [normalizedStage_Cron, hcr]

lemma LoadConfig_ok_inv (fs : List (Option (List String))) (e : Env) (c : Config)
    (h : LoadConfig fs e = Except.ok c) :
    ∃ c0, popConfig (loadDotEnvFiles e fs) = Except.ok c0 ∧ assemble c0 = Except.ok c := by
  unfold LoadConfig at h
  cases hp : popConfig (loadDotEnvFiles e fs) <;> rw [hp] at h
  case error => simp at h
  case ok c0 => exact ⟨c0, rfl, h⟩

end Tasker

namespace Tasker

/-- C2 counterexample: stripping is reapplied by a second pass when the
remainder itself carries a scheme marker, so normalization is not
idempotent on all strings. -/
theorem C2_counterexample :
    normalizeRedisAddress (normalizeRedisAddress "redis://redis://h") ≠
      normalizeRedisAddress "redis://redis://h" := by decide

/-- C2 (amended): cache-address normalization is idempotent on every string
whose once-normalized form is fully trimmed and does not begin with a
recognized scheme marker; a second application can otherwise strip a second
marker or trim whitespace exposed by the first strip. -/
theorem C2_idempotent_amended (x : String)
    (h1 : strTrim (normalizeRedisAddress x) = normalizeRedisAddress x)
    (h2 : strStartsWith (normalizeRedisAddress x) "redis://" = false)
    (h3 : strStartsWith (normalizeRedisAddress x) "rediss://" = false) :
    normalizeRedisAddress (normalizeRedisAddress x) = normalizeRedisAddress x := by
  generalize hy : normalizeRedisAddress x = y at h1 h2 h3 ⊢
  by_cases h0 : y = ""
  · rw [h0]; rfl
  · unfold normalizeRedisAddress
    rw [if_neg h0, h1]
    simp [h2, h3]

/-- C2 witness: the amended idempotency applied to a concrete address. -/
theorem C2_idempotent_witness :
    normalizeRedisAddress (normalizeRedisAddress "redis://cache:6379") =
      normalizeRedisAddress "redis://cache:6379" :=
  C2_idempotent_amended "redis://cache:6379" (by decide) (by decide) (by decide)

/-- C3: the two scheme markers are stripped exactly, and any non-empty
address whose trimmed form starts with neither marker is passed through
as its trimmed self. -/
theorem C3_scheme_normalization :
    normalizeRedisAddress "redis://cache:6379" = "cache:6379" ∧
    normalizeRedisAddress "rediss://cache:6379" = "cache:6379" ∧
    (∀ x : String, x ≠ "" →
      strStartsWith (strTrim x) "redis://" = false →
      strStartsWith (strTrim x) "rediss://" = false →
      normalizeRedisAddress x = strTrim x) := by
  refine ⟨by decide, by decide, ?_⟩
  intro x h0 h2 h3
  unfold normalizeRedisAddress
  rw [if_neg h0]
  simp [h2, h3]

/-- C3 witness: an unrecognized address is only trimmed. -/
theorem C3_scheme_normalization_witness :
    normalizeRedisAddress " cache:6379 " = strTrim " cache:6379 " :=
  C3_scheme_normalization.2.2 " cache:6379 " (by decide) (by decide) (by decide)

/-- C6: when two override files are loaded in order, the value for a key
defined in both is the later file's value; each setEnv overwrites the
effective binding. -/
theorem C6_later_file_wins (e : Env) (A B : List String) (k v w : String)
    (_hA : fileValue A k = some w) (hB : fileValue B k = some v) :
    getEnv (loadDotEnvFiles e [some A, some B]) k = some v := by
  have h1 : loadDotEnvFiles e [some A, some B] = loadFile (loadFile e A) B := rfl
  rw [h1, loadFile_append B (loadFile e A), getEnv_append]
  unfold fileValue at hB
  rw [hB]

/-- C6 witness: the later of two one-line files supplies the value. -/
theorem C6_later_file_wins_witness :
    getEnv (loadDotEnvFiles [] [some ["K=a"], some ["K=b"]]) "K" = some "b" :=
  C6_later_file_wins [] ["K=a"] ["K=b"] "K" "b" "a" (by decide) (by decide)

/-- C7: line parsing splits at the first equals sign only, trims key and
value, and strips exactly one matching pair of surrounding quotes; shown on
the spec scenario, on representative lines for each clause, and by the
general first-split property. -/
theorem C7_line_splitting :
    parseLine "KEY=\"quoted value\"" = some ("KEY", "quoted value") ∧
    parseLine "A=b=c" = some ("A", "b=c") ∧
    parseLine "  K  =  v v  " = some ("K", "v v") ∧
    parseLine "K=\"'x'\"" = some ("K", "'x'") ∧
    parseLine "K='a'b'" = some ("K", "a'b") ∧
    (∀ l r : List Char, l.contains '=' = false →
      splitFirstEq (l ++ '=' :: r) = some (l, r)) := by
  refine ⟨by decide, by decide, by decide, by decide, by decide, ?_⟩
  intro l r hl
  induction l with
  | nil => simp [splitFirstEq]
  | cons c cs ih =>
    simp only [List.contains_cons, Bool.or_eq_false_iff, beq_eq_false_iff_ne] at hl
    simp only [List.cons_append, splitFirstEq]
    rw [if_neg (by simp [Ne.symm hl.1])]
    simp only [List.append_eq]
    rw [ih hl.2]

/-- C7 witness: the general first-split property at a concrete line whose
value part contains a further equals sign. -/
theorem C7_line_splitting_witness :
    splitFirstEq ("KEY".toList ++ '=' :: "a=b".toList) =
      some ("KEY".toList, "a=b".toList) :=
  C7_line_splitting.2.2.2.2.2 "KEY".toList "a=b".toList (by decide)

end Tasker

namespace Tasker

/-- C1 counterexample: an underscore in the variable remainder is not
mapped to the hierarchy separator, so PREFIX_SERVER_PORT yields the flat
key server_port; with every other required field supplied the pipeline
fails validation on server.port instead of producing port 8080. -/
theorem C1_counterexample :
    transformEnvKey "TASKER_SERVER_PORT" = some "server_port" ∧
    LoadConfig [] envC1 = Except.error ["server.port"] :=
  ⟨rfl, rfl⟩

/-- C1 (amended): the collector strips the marker and lowercases the
remainder, and only the dot delimiter separates hierarchy levels; a key
written with the dot, TASKER_SERVER.PORT, lands in the server section and
yields port 8080 when all other required fields are supplied. -/
theorem C1_collector_amended :
    transformEnvKey "TASKER_SERVER.PORT" = some "server.port" ∧
    LoadConfig [] envFull = Except.ok cfgFull ∧
    cfgFull.Server.Port = "8080" :=
  ⟨rfl, rfl, rfl⟩

/-- C4: an entirely absent optional section is replaced wholesale by its
built-in default record, while a supplied section is kept exactly as
populated and never merged field by field; the identity overwrite is the
only later change to the observability record. -/
theorem C4_section_defaulting (fs : List (Option (List String))) (e : Env) (c0 c : Config)
    (hp : popConfig (loadDotEnvFiles e fs) = Except.ok c0)
    (h : LoadConfig fs e = Except.ok c) :
    (c0.Cron = none → c.Cron = some DefaultCronConfig) ∧
    (∀ cr, c0.Cron = some cr → c.Cron = some cr) ∧
    (c0.Observability = none →
      c.Observability = some { DefaultObservabilityConfig with
        ServiceName := "tasker", Environment := c0.Primary.Env }) ∧
    (∀ o, c0.Observability = some o →
      c.Observability = some { o with
        ServiceName := "tasker", Environment := c0.Primary.Env }) := by
  obtain ⟨c0x, hpx, hasm⟩ := LoadConfig_ok_inv fs e c h
  rw [hp] at hpx
  simp only [Except.ok.injEq] at hpx
  subst hpx
  obtain ⟨_, _, hobs, _, hcron⟩ := assemble_ok_inv c0 c hasm
  refine ⟨?_, ?_, ?_, ?_⟩
  · intro hc; rw [hcron, hc]
  · intro cr hc; rw [hcron, hc]
  · intro ho
    rw [hobs]
    unfold overwrittenObservability defaultedObservability
    rw [ho]
  · intro o ho
    rw [hobs]
    unfold overwrittenObservability defaultedObservability
    rw [ho]

/-- C4 witness: an input with no scheduled-job keys receives exactly the
built-in cron default record. -/
theorem C4_section_defaulting_witness : cfgFull.Cron = some DefaultCronConfig :=
  (C4_section_defaulting [] envFull popFull cfgFull rfl rfl).1 rfl

/-- C5: after assembly the observability service name is always the
constant and the environment is always copied from Primary, for every
input on which loading succeeds, including inputs that supplied
conflicting values for those fields. -/
theorem C5_identity_overwrite (fs : List (Option (List String))) (e : Env) (c : Config)
    (h : LoadConfig fs e = Except.ok c) :
    ∃ o, c.Observability = some o ∧ o.ServiceName = "tasker" ∧
      o.Environment = c.Primary.Env := by
  obtain ⟨c0, hp, hasm⟩ := LoadConfig_ok_inv fs e c h
  obtain ⟨_, hprim, hobs, _, _⟩ := assemble_ok_inv c0 c hasm
  refine ⟨overwrittenObservability c0, hobs, rfl, ?_⟩
  rw [hprim]
  rfl

/-- C5 witness: envFull supplies conflicting observability identity values
and they are overwritten from the constant and from Primary. -/
theorem C5_identity_overwrite_witness :
    ∃ o, cfgFull.Observability = some o ∧ o.ServiceName = "tasker" ∧
      o.Environment = cfgFull.Primary.Env :=
  C5_identity_overwrite [] envFull cfgFull rfl

/-- C8: when the populated configuration has an empty database name,
loading fails with an error list containing the concrete field path
database.name, so no configuration value is produced. -/
theorem C8_missing_database_name (fs : List (Option (List String))) (e : Env) (c : Config)
    (hp : popConfig (loadDotEnvFiles e fs) = Except.ok c)
    (hname : c.Database.Name = "") :
    ∃ errs, LoadConfig fs e = Except.error errs ∧ "database.name" ∈ errs := by
  have hmem : "database.name" ∈ validateConfig c := by
    simp [validateConfig, requiredStr, hname]
  have hne : validateConfig c ≠ [] := by
    intro h0
    rw [h0] at hmem
    exact List.not_mem_nil _ hmem
  refine ⟨validateConfig c, ?_, hmem⟩
  unfold LoadConfig
  rw [hp]
  show assemble c = Except.error (validateConfig c)
  unfold assemble
  rw [if_neg hne]

/-- C8 witness: envFull with the database name key removed fails loading
and reports database.name. -/
theorem C8_missing_database_name_witness :
    ∃ errs, LoadConfig [] envC8 = Except.error errs ∧ "database.name" ∈ errs :=
  C8_missing_database_name [] envC8 _ rfl rfl

/-- C9: validation only constrains the fields carrying a required tag;
Database.Password, Redis.Password and AWS.EndpointURL carry none, so any
configuration whose required fields are all non-zero validates, whatever
those three fields hold. -/
theorem C9_untagged_fields (c : Config)
    (h1 : c.Primary.Env ≠ "") (h2 : c.Server.Port ≠ "")
    (h3 : c.Server.ReadTimeout ≠ 0) (h4 : c.Server.WriteTimeout ≠ 0)
    (h5 : c.Server.IdleTimeout ≠ 0) (h6 : c.Server.CORSAllowedOrigins ≠ [])
    (h7 : c.Database.Host ≠ "") (h8 : c.Database.Port ≠ 0)
    (h9 : c.Database.User ≠ "") (h10 : c.Database.Name ≠ "")
    (h11 : c.Database.SSLMode ≠ "") (h12 : c.Database.MaxOpenConns ≠ 0)
    (h13 : c.Database.MaxIdleConns ≠ 0) (h14 : c.Database.ConnMaxLifetime ≠ 0)
    (h15 : c.Database.ConnMaxIdleTime ≠ 0) (h16 : c.Auth.SecretKey ≠ "")
    (h17 : c.Redis.Address ≠ "") (h18 : c.Integration.ResendAPIKey ≠ "")
    (h19 : c.AWS.Region ≠ "") (h20 : c.AWS.AccessKeyID ≠ "")
    (h21 : c.AWS.SecretAccessKey ≠ "") (h22 : c.AWS.UploadBucket ≠ "") :
    validateConfig c = [] := by
  simp [validateConfig, requiredStr, requiredInt, requiredList,
    h1, h2, h3, h4, h5, h6, h7, h8, h9, h10, h11, h12, h13, h14, h15, h16,
    h17, h18, h19, h20, h21, h22]

/-- C9 witness: popFull leaves Database.Password, Redis.Password and
AWS.EndpointURL empty and still validates. -/
theorem C9_untagged_fields_witness : validateConfig popFull = [] :=
  C9_untagged_fields popFull (by decide) (by decide) (by decide) (by decide)
    (by decide) (by decide) (by decide) (by decide) (by decide) (by decide)
    (by decide) (by decide) (by decide) (by decide) (by decide) (by decide)
    (by decide) (by decide) (by decide) (by decide) (by decide) (by decide)

/-- C10: the built-in cron default record holds exactly 30, 100, 24 and 10,
and any successful load whose overlaid environment contains no key under
the cron section ends with exactly that record. -/
theorem C10_cron_default_record :
    DefaultCronConfig =
      { ArchiveDaysThreshold := 30, BatchSize := 100, ReminderHours := 24,
        MaxTodosPerUserNotification := 10 } ∧
    (∀ (fs : List (Option (List String))) (e : Env) (c : Config),
      hasSection (loadDotEnvFiles e fs) "cron" = false →
      LoadConfig fs e = Except.ok c →
      c.Cron = some
        { ArchiveDaysThreshold := 30, BatchSize := 100, ReminderHours := 24,
          MaxTodosPerUserNotification := 10 }) := by
  refine ⟨rfl, ?_⟩
  intro fs e c hno h
  obtain ⟨c0, hp, hasm⟩ := LoadConfig_ok_inv fs e c h
  obtain ⟨sv, db, cr, hs, hd, hcx, hceq⟩ :=
    popConfig_ok_inv (loadDotEnvFiles e fs) c0 hp
  rw [popCron_of_no_section (loadDotEnvFiles e fs) hno] at hcx
  simp only [Except.ok.injEq] at hcx
  obtain ⟨_, _, _, _, hcron⟩ := assemble_ok_inv c0 c hasm
  have hc0 : c0.Cron = none := by rw [hceq, ← hcx]
  rw [hcron, hc0]
  rfl

/-- C10 witness: envFull has no cron keys and the final cron section is the
concrete default record. -/
theorem C10_cron_default_record_witness :
    cfgFull.Cron = some
      { ArchiveDaysThreshold := 30, BatchSize := 100, ReminderHours := 24,
        MaxTodosPerUserNotification := 10 } :=
  C10_cron_default_record.2 [] envFull cfgFull rfl rfl

end Tasker
